import Mathlib

/-
Shallow embedding of the image-response conversion core of the spot_ros2
driver (src/spot_driver_cpp/src/api/default_image_client.cpp) and of the
inverse-kinematics service callback
(src/spot_driver_cpp/src/kinematic_service.cpp).

Conventions of the embedding:
- Timestamps and clock skews are integer nanosecond counts (`Int`), matching
  the nanosecond resolution of `google::protobuf::Timestamp` / `Duration`.
- Byte buffers are `List Nat` (one entry per byte).
- `tl::expected<T, std::string>` becomes `Except String T`.
- The SE3 pose payload carried by a transform edge (translation + rotation,
  C++ doubles) is copied verbatim by the code under scrutiny and never
  inspected or computed with; it is embedded as an abstract token type
  `Pose` so that pass-through behaviour can be stated exactly.
- The unordered protobuf edge map `child_to_parent_edge_map` is embedded as
  an association list whose order stands for the incidental iteration order
  of the container.
- External collaborators that live outside the given sources (the JPEG
  codec `cv::imdecode`, the source-name registry `fromSpotImageSourceName`,
  the kinematics API and its message conversions) are taken as parameters,
  so every theorem quantifies over all their possible behaviours.
-/

namespace SpotRos2

/-- OpenCV element-depth code `CV_8U`. -/
def CV_8U : Nat := 0

/-- OpenCV element-depth code `CV_16U`. -/
def CV_16U : Nat := 2

/-- OpenCV `CV_MAKETYPE(depth, cn)`: the depth code plus `(cn - 1) << 3`. -/
def cvMakeType (depth cn : Nat) : Nat := depth + (cn - 1) * 8

/-- OpenCV type code `CV_8UC1` (1 channel, 8 bits). -/
def CV_8UC1 : Nat := cvMakeType CV_8U 1

/-- OpenCV type code `CV_8UC3` (3 channels, 8 bits). -/
def CV_8UC3 : Nat := cvMakeType CV_8U 3

/-- OpenCV type code `CV_8UC4` (4 channels, 8 bits). -/
def CV_8UC4 : Nat := cvMakeType CV_8U 4

/-- OpenCV type code `CV_16UC1` (1 channel, 16 bits). -/
def CV_16UC1 : Nat := cvMakeType CV_16U 1

/-- Channel count encoded in an OpenCV type code. -/
def cvChannels (t : Nat) : Nat := t / 8 + 1

/-- Bit depth encoded in an OpenCV type code: 16 for a `CV_16U` depth code,
8 for a `CV_8U` depth code. -/
def cvBitDepth (t : Nat) : Nat := if t % 8 = CV_16U then 16 else 8

/-- Wire pixel-format enumeration `bosdyn::api::Image_PixelFormat`. The five
named constructors are the values the switch in `getCvPixelFormat` handles;
`other n` stands for `PIXEL_FORMAT_UNKNOWN` and any unlisted wire value `n`
(a C++ protobuf enum may hold any integer), all of which fall to the switch
default. -/
inductive PixelFormat where
  | RGB_U8
  | RGBA_U8
  | GREYSCALE_U8
  | GREYSCALE_U16
  | DEPTH_U16
  | other (wireValue : Nat)
deriving DecidableEq, Repr

/-- Wire image-encoding enumeration `bosdyn::api::Image_Format`; `other n`
stands for `FORMAT_UNKNOWN` and any unlisted wire value. -/
inductive ImageFormat where
  | JPEG
  | RAW
  | RLE
  | other (wireValue : Nat)
deriving DecidableEq, Repr

/-- Embedding of the anonymous-namespace function `getCvPixelFormat`
(default_image_client.cpp lines 46-67): a switch over the wire pixel format
returning an OpenCV type code, with the default case failing. -/
def getCvPixelFormat : PixelFormat → Except String Nat
  | .RGB_U8 => .ok CV_8UC3
  | .RGBA_U8 => .ok CV_8UC4
  | .GREYSCALE_U8 => .ok CV_8UC1
  | .GREYSCALE_U16 => .ok CV_16UC1
  | .DEPTH_U16 => .ok CV_16UC1
  | .other _ => .error "Unknown pixel format."

/-- Abstract token standing for the SE3 pose payload (`parent_tform_child`:
translation + rotation doubles). The code copies it verbatim and never
inspects it, so only its identity matters to the embedding. -/
structure Pose where
  tag : Nat
deriving DecidableEq, Repr

/-- One value of the snapshot edge map: the parent frame name and the pose of
the child in the parent frame (`bosdyn::api::FrameTreeSnapshot`
parent-edge). -/
structure FrameEdge where
  parentFrameName : String
  parentTformChild : Pose
deriving DecidableEq, Repr

/-- Embedding of `bosdyn::api::Image`: declared dimensions, payload bytes,
pixel format and encoding. -/
structure Image where
  rows : Nat
  cols : Nat
  data : List Nat
  pixelFormat : PixelFormat
  format : ImageFormat
deriving DecidableEq, Repr

/-- Embedding of `bosdyn::api::ImageCapture` (the `shot`): the image, the
sensor frame name, the acquisition time, and the transform snapshot's
child-to-parent edge map in its iteration order. -/
structure ImageCapture where
  image : Image
  frameNameImageSensor : String
  acquisitionTime : Int
  transformsSnapshot : List (String × FrameEdge)
deriving DecidableEq, Repr

/-- Pinhole intrinsics of an image source. The four C++ doubles are carried
as abstract integer tokens: the code only copies them into the output
matrices. -/
structure Intrinsics where
  focalX : Int
  focalY : Int
  principalX : Int
  principalY : Int
deriving DecidableEq, Repr

/-- Embedding of `bosdyn::api::ImageSource`: the wire source name and the
pinhole intrinsics. -/
structure ImageSource where
  name : String
  intrinsics : Intrinsics
deriving DecidableEq, Repr

/-- Embedding of `bosdyn::api::ImageResponse`: the capture (`shot`) and its
source description. -/
structure ImageResponse where
  shot : ImageCapture
  source : ImageSource
deriving DecidableEq, Repr

/-- Embedding of a `cv::Mat` header: dimensions, OpenCV type code and the
backing bytes. The external-data constructor `cv::Mat(rows, cols, type, ptr)`
wraps `ptr` without copying or size validation, so `data` is exactly the
wrapped payload. -/
structure Mat where
  rows : Nat
  cols : Nat
  cvType : Nat
  data : List Nat
deriving DecidableEq, Repr

/-- Embedding of `sensor_msgs::msg::Image` (header flattened in). -/
structure ImageMsg where
  frameId : String
  stamp : Int
  height : Nat
  width : Nat
  encoding : String
  data : List Nat
deriving DecidableEq, Repr

/-- Embedding of `sensor_msgs::msg::CameraInfo` (header flattened in); the
matrix entries are the abstract intrinsics tokens and literal 0/1
constants. -/
structure CameraInfoMsg where
  frameId : String
  stamp : Int
  height : Nat
  width : Nat
  distortionModel : String
  d : List Int
  r : List Int
  k : List Int
  p : List Int
deriving DecidableEq, Repr

/-- Embedding of `geometry_msgs::msg::TransformStamped`. -/
structure TransformStamped where
  parentFrameId : String
  childFrameId : String
  stamp : Int
  transform : Pose
deriving DecidableEq, Repr

/-- Modelled from the spec: `spot_ros2::applyClockSkew` is declared in
`default_time_sync_api.hpp`, whose definition is not among the provided
sources; the spec fixes the correction as `timestamp - skew` (skew =
robot clock minus local clock) at nanosecond resolution, a pure total
function. -/
def applyClockSkew (timestamp clockSkew : Int) : Int := timestamp - clockSkew

/-- Frame-id namespacing used at default_image_client.cpp lines 77-78, 123
and 178-179: `robot_name` plus a `/` separator in front of the frame name,
with the separator omitted entirely when `robot_name` is empty. -/
def namespacedFrame (robotName frame : String) : String :=
  (if robotName = "" then "" else robotName ++ "/") ++ frame

/-- Embedding of the exclusion set `kExcludedStaticTfFrames`
(default_image_client.cpp lines 31-44). The C++ `std::set` is only ever
queried for membership, so a list with `contains` is an exact model. -/
def kExcludedStaticTfFrames : List String :=
  ["body", "odom", "vision", "arm0.link_wr1"]

/-- Modelled from the spec: `spot_ros2::conversions::toTransformStamped`
(conversions/geometry, not among the provided sources) packs its four
arguments into a `TransformStamped` message and performs no computation. -/
def toTransformStamped (pose : Pose) (parentFrameId childFrameId : String)
    (stamp : Int) : TransformStamped :=
  { parentFrameId := parentFrameId
    childFrameId := childFrameId
    stamp := stamp
    transform := pose }

/-- Embedding of the anonymous-namespace function `getImageTransforms`
(default_image_client.cpp lines 160-185). The loop over the edge map skips
children in the exclusion set, renames the parent "arm0.link_wr1" to
"link_wr1", namespaces both frame ids, and stamps every transform with the
skew-corrected acquisition time. The C++ function returns a
`tl::expected` that is always a value (no path produces an error), so the
embedding returns the list directly. -/
def getImageTransforms (shot : ImageCapture) (robotName : String)
    (clockSkew : Int) : List TransformStamped :=
  shot.transformsSnapshot.filterMap fun edge =>
    if kExcludedStaticTfFrames.contains edge.1 then none
    else
      let parentFrameId :=
        if edge.2.parentFrameName = "arm0.link_wr1" then "link_wr1"
        else edge.2.parentFrameName
      some (toTransformStamped edge.2.parentTformChild
        (namespacedFrame robotName parentFrameId)
        (namespacedFrame robotName edge.1)
        (applyClockSkew shot.acquisitionTime clockSkew))

/-- Embedding of `toCameraInfoMsg` (default_image_client.cpp lines 69-113).
Every path returns a value; the `tl::expected` return type is kept to mirror
the caller's (dead) error check. ROS message arrays are zero-initialised, so
the entries the C++ does not assign are 0. -/
def toCameraInfoMsg (imageResponse : ImageResponse) (robotName : String)
    (clockSkew : Int) : Except String CameraInfoMsg :=
  let intr := imageResponse.source.intrinsics
  .ok
    { frameId := namespacedFrame robotName
        imageResponse.shot.frameNameImageSensor
      stamp := applyClockSkew imageResponse.shot.acquisitionTime clockSkew
      height := imageResponse.shot.image.rows
      width := imageResponse.shot.image.cols
      distortionModel := "plumb_bob"
      d := [0, 0, 0, 0, 0]
      r := [1, 0, 0, 0, 1, 0, 0, 0, 1]
      k := [intr.focalX, 0, intr.principalX,
            0, intr.focalY, intr.principalY,
            0, 0, 1]
      p := [intr.focalX, 0, intr.principalX, 0,
            0, intr.focalY, intr.principalY, 0,
            0, 0, 1, 0] }

/-- Embedding of `toImageMsg` (default_image_client.cpp lines 115-158),
parameterised by the JPEG codec `jdecode` standing for
`cv::imdecode(..., IMREAD_COLOR)` (`none` = decode failure, i.e. a returned
`cv::Mat` with null `data`). Pixel-format resolution happens before the
encoding dispatch, exactly as in the source. In the RAW branch the
external-data `cv::Mat` constructor stores the payload pointer unchanged;
since a `std::string` buffer pointer is never null, the `!img.data` check
in the source can never fire and the branch always succeeds, labelling the
message `16UC1` whatever the resolved OpenCV type code was. -/
def toImageMsg (jdecode : Mat → Option Mat) (imageCapture : ImageCapture)
    (robotName : String) (clockSkew : Int) : Except String ImageMsg :=
  let image := imageCapture.image
  let data := image.data
  let frameId := namespacedFrame robotName imageCapture.frameNameImageSensor
  let stamp := applyClockSkew imageCapture.acquisitionTime clockSkew
  match getCvPixelFormat image.pixelFormat with
  | .error e => .error ("Failed to determine pixel format: " ++ e)
  | .ok cvFmt =>
    match image.format with
    | .JPEG =>
      let imgCompressed : Mat :=
        { rows := 1, cols := image.rows * image.cols,
          cvType := CV_8UC1, data := data }
      match jdecode imgCompressed with
      | none => .error "Failed to decode JPEG-compressed image."
      | some imgBgr =>
        .ok { frameId := frameId, stamp := stamp,
              height := imgBgr.rows, width := imgBgr.cols,
              encoding := "bgr8", data := imgBgr.data }
    | .RAW =>
      let img : Mat :=
        { rows := image.rows, cols := image.cols,
          cvType := cvFmt, data := data }
      .ok { frameId := frameId, stamp := stamp,
            height := img.rows, width := img.cols,
            encoding := "16UC1", data := img.data }
    | .RLE => .error "Conversion from FORMAT_RLE is not yet implemented."
    | .other _ => .error "Unknown image format."

/-- One image/camera-info pair of the result map. -/
structure ImageWithCameraInfo where
  image : ImageMsg
  cameraInfo : CameraInfoMsg
deriving DecidableEq, Repr

/-- Embedding of `GetImagesResult`: the source-name-keyed image map
(`std::map`, embedded as an association list with unique keys) and the
batch-wide transform list. -/
structure GetImagesResult where
  images : List (String × ImageWithCameraInfo)
  transforms : List TransformStamped
deriving DecidableEq, Repr

/-- Embedding of `std::map::try_emplace`: insert only when the key is not
already present; a present key leaves the map completely unchanged and
reports nothing. (The C++ map is ordered by key; the claims only ever
depend on which bindings are present, which the association list tracks
exactly.) -/
def tryEmplace (m : List (String × ImageWithCameraInfo)) (key : String)
    (value : ImageWithCameraInfo) : List (String × ImageWithCameraInfo) :=
  if m.any fun entry => entry.1 == key then m else m ++ [(key, value)]

/-- Embedding of one iteration of the loop body of
`DefaultImageClient::getImages` (default_image_client.cpp lines 209-238):
convert the image, build the camera info, map the wire source name, insert
via `try_emplace`, then append the transforms. Each failing stage returns
the stage-context-wrapped error immediately. `fromSpotImageSourceName` (the
source-name registry, defined outside the provided sources) is a
parameter. The transform stage's `tl::expected` is always a value (see
`getImageTransforms`), so its error branch in the source is dead. -/
def convertStep (jdecode : Mat → Option Mat)
    (fromSpotImageSourceName : String → Except String String)
    (robotName : String) (clockSkew : Int) (out : GetImagesResult)
    (imageResponse : ImageResponse) : Except String GetImagesResult :=
  match toImageMsg jdecode imageResponse.shot robotName clockSkew with
  | .error e =>
    .error ("Failed to convert SDK image response to ROS Image message: "
      ++ e)
  | .ok imageMsg =>
    match toCameraInfoMsg imageResponse robotName clockSkew with
    | .error e =>
      .error
        ("Failed to convert SDK image response to ROS CameraInfo message: "
          ++ e)
    | .ok infoMsg =>
      match fromSpotImageSourceName imageResponse.source.name with
      | .error e =>
        .error ("Failed to convert API image source name to ImageSource: "
          ++ e)
      | .ok sourceName =>
        let out1 : GetImagesResult :=
          { out with
            images := tryEmplace out.images sourceName
              { image := imageMsg, cameraInfo := infoMsg } }
        let transforms :=
          getImageTransforms imageResponse.shot robotName clockSkew
        .ok { out1 with transforms := out1.transforms ++ transforms }

/-- Embedding of the response loop of `DefaultImageClient::getImages`
(default_image_client.cpp lines 208-240): fold `convertStep` over the batch,
aborting at the first error. -/
def getImagesLoop (jdecode : Mat → Option Mat)
    (fromSpotImageSourceName : String → Except String String)
    (robotName : String) (clockSkew : Int) (out : GetImagesResult) :
    List ImageResponse → Except String GetImagesResult
  | [] => .ok out
  | r :: rest =>
    match convertStep jdecode fromSpotImageSourceName robotName clockSkew
        out r with
    | .error e => .error e
    | .ok out1 =>
      getImagesLoop jdecode fromSpotImageSourceName robotName clockSkew
        out1 rest

/-- Embedding of `DefaultImageClient::getImages` after its two external
calls: the network retrieval and the clock-skew estimate are collaborators
outside this core (their failures return before the loop), so the embedding
takes the already-retrieved response batch and skew as inputs and runs the
conversion loop from an empty result. -/
def getImages (jdecode : Mat → Option Mat)
    (fromSpotImageSourceName : String → Except String String)
    (robotName : String) (clockSkew : Int)
    (responses : List ImageResponse) : Except String GetImagesResult :=
  getImagesLoop jdecode fromSpotImageSourceName robotName clockSkew
    { images := [], transforms := [] } responses

/-! Embedding of `KinematicService::service_callback_`
(kinematic_service.cpp lines 27-35). The ROS message and proto types are
opaque to this code; they are embedded as single-field structures. The
response objects live in a heap embedded as a list indexed by address;
`std::make_shared` inside the conversion allocates at the fresh address
`heap.length`. -/

/-- Opaque ROS inverse-kinematics request message. -/
structure IKRequestMsg where
  payload : Nat
deriving DecidableEq, Repr

/-- Opaque proto inverse-kinematics request. -/
structure IKProtoRequest where
  payload : Nat
deriving DecidableEq, Repr

/-- Opaque proto inverse-kinematics response. -/
structure IKProtoResponse where
  payload : Nat
deriving DecidableEq, Repr

/-- Result wrapper returned by `KinematicApi::get_solutions`; the callback
reads its `.response` field. -/
structure IKResult where
  response : IKProtoResponse
deriving DecidableEq, Repr

/-- Opaque ROS inverse-kinematics response message. -/
structure IKResponseMsg where
  payload : Nat
deriving DecidableEq, Repr

/-- Outcome of one callback invocation: the log lines emitted, the heap of
response objects after the call, and the final value of the callback's
local `response` pointer variable (`none` when the call ended by the
`tl::expected::value()` exception on the error path, before the local was
reassigned). -/
structure ServiceOutcome where
  log : List String
  heap : List IKResponseMsg
  localResponse : Option Nat
deriving DecidableEq, Repr

/-- Embedding of `KinematicService::service_callback_` (kinematic_service.cpp
lines 27-35). `get_solutions`, `convertRequestToProto`
(`convert_inverse_kinematics_request_to_proto`) and `convertProtoToResponse`
(`convert_proto_to_inverse_kinematics_response`, which allocates its result
via `std::make_shared`) live outside the provided sources and are
parameters. On an API error the callback logs and then calls
`expected.value()`, which throws `bad_expected_access`, so the call ends
with the heap untouched. On success the conversion allocates a fresh
response object and line 34 reassigns the local `response` pointer to it;
nothing is ever written through the caller-supplied address
`responseAddr`, which the body never reads. -/
def service_callback (getSolutions : IKProtoRequest → Except String IKResult)
    (convertRequestToProto : IKRequestMsg → IKProtoRequest)
    (convertProtoToResponse : IKProtoResponse → IKResponseMsg)
    (heap : List IKResponseMsg) (request : IKRequestMsg)
    (responseAddr : Nat) : ServiceOutcome :=
  let protoRequest := convertRequestToProto request
  match getSolutions protoRequest with
  | .error e =>
    { log := ["Error searching for an InverseKinematic solution: " ++ e]
      heap := heap
      localResponse := none }
  | .ok expectedVal =>
    let converted := convertProtoToResponse expectedVal.response
    { log := []
      heap := heap ++ [converted]
      localResponse := some heap.length }

/-! Concrete fixtures used by counterexamples and witnesses. -/

/-- JPEG codec that always fails; the RAW-path fixtures never reach it. -/
def jdNone : Mat → Option Mat := fun _ => none

/-- Source-name registry mapping every wire name to the canonical name
"frontleft". -/
def fnFrontleft : String → Except String String := fun _ => .ok "frontleft"

/-- Well-formed 1x1 raw depth image: 1*1*2 = 2 payload bytes. -/
def imgDepth : Image :=
  { rows := 1, cols := 1, data := [0, 0],
    pixelFormat := .DEPTH_U16, format := .RAW }

/-- Capture of `imgDepth` with an empty snapshot, acquired at t = 100. -/
def capDepth : ImageCapture :=
  { image := imgDepth, frameNameImageSensor := "frontleft_fisheye",
    acquisitionTime := 100, transformsSnapshot := [] }

/-- Response carrying `capDepth`. -/
def respDepth : ImageResponse :=
  { shot := capDepth,
    source := { name := "frontleft_fisheye_image",
                intrinsics := { focalX := 1, focalY := 2,
                                principalX := 3, principalY := 4 } } }

/-- Image message produced by converting `capDepth` with no namespace and
zero skew. -/
def msgDepth : ImageMsg :=
  { frameId := "frontleft_fisheye", stamp := 100, height := 1, width := 1,
    encoding := "16UC1", data := [0, 0] }

/-- Batch containing the same source twice: both entries map to the
canonical name "frontleft". -/
def dupRunResult : Except String GetImagesResult :=
  getImages jdNone fnFrontleft "" 0 [respDepth, respDepth]

/-- Pair already present under the key "frontleft". -/
def pairDepth : ImageWithCameraInfo :=
  { image := msgDepth
    cameraInfo :=
      { frameId := "frontleft_fisheye", stamp := 100, height := 1,
        width := 1, distortionModel := "plumb_bob",
        d := [0, 0, 0, 0, 0], r := [1, 0, 0, 0, 1, 0, 0, 0, 1],
        k := [1, 0, 3, 0, 2, 4, 0, 0, 1],
        p := [1, 0, 3, 0, 0, 2, 4, 0, 0, 0, 1, 0] } }

/-- Accumulated result that already binds "frontleft". -/
def outWithFrontleft : GetImagesResult :=
  { images := [("frontleft", pairDepth)], transforms := [] }

/-- Undersized raw 16-bit payload: 2*2*2 = 8 bytes declared, 7 provided. -/
def imgUndersized : Image :=
  { rows := 2, cols := 2, data := [0, 0, 0, 0, 0, 0, 0],
    pixelFormat := .GREYSCALE_U16, format := .RAW }

/-- Capture of the undersized image. -/
def capUndersized : ImageCapture :=
  { image := imgUndersized, frameNameImageSensor := "cam",
    acquisitionTime := 5, transformsSnapshot := [] }

/-- Zero-byte raw 16-bit payload with nonzero declared dimensions. -/
def imgEmpty : Image :=
  { rows := 1, cols := 1, data := [],
    pixelFormat := .GREYSCALE_U16, format := .RAW }

/-- Capture of the zero-byte image. -/
def capEmpty : ImageCapture :=
  { image := imgEmpty, frameNameImageSensor := "cam",
    acquisitionTime := 5, transformsSnapshot := [] }

/-- Raw RGB-8 image: 3-channel 8-bit layout, not single-channel 16-bit. -/
def imgRawRGB : Image :=
  { rows := 1, cols := 1, data := [9, 9, 9],
    pixelFormat := .RGB_U8, format := .RAW }

/-- Capture of the raw RGB image. -/
def capRawRGB : ImageCapture :=
  { image := imgRawRGB, frameNameImageSensor := "cam",
    acquisitionTime := 0, transformsSnapshot := [] }

/-- Snapshot edge from child "frontleft_fisheye" (not excluded). -/
def edgeA : String × FrameEdge :=
  ("frontleft_fisheye", { parentFrameName := "body", parentTformChild := { tag := 1 } })

/-- Snapshot edge from child "frontright_fisheye" (not excluded). -/
def edgeB : String × FrameEdge :=
  ("frontright_fisheye", { parentFrameName := "body", parentTformChild := { tag := 2 } })

/-- Capture whose snapshot iterates `edgeA` before `edgeB`. -/
def shotAB : ImageCapture :=
  { image := imgDepth, frameNameImageSensor := "cam",
    acquisitionTime := 0, transformsSnapshot := [edgeA, edgeB] }

/-- Capture over the same edge set, iterated in the other order. -/
def shotBA : ImageCapture :=
  { image := imgDepth, frameNameImageSensor := "cam",
    acquisitionTime := 0, transformsSnapshot := [edgeB, edgeA] }

/-- Capture exercising exclusion and the wrist-link rename: children
"body", "odom", "vision" and "arm0.link_wr1" must be skipped, and the
edge from "hand_color_image_sensor" has parent "arm0.link_wr1". -/
def shotHand : ImageCapture :=
  { image := imgDepth, frameNameImageSensor := "hand_color_image_sensor",
    acquisitionTime := 50,
    transformsSnapshot :=
      [("body", { parentFrameName := "odom", parentTformChild := { tag := 1 } }),
       ("odom", { parentFrameName := "", parentTformChild := { tag := 2 } }),
       ("vision", { parentFrameName := "", parentTformChild := { tag := 3 } }),
       ("arm0.link_wr1", { parentFrameName := "body", parentTformChild := { tag := 4 } }),
       ("hand_color_image_sensor",
        { parentFrameName := "arm0.link_wr1", parentTformChild := { tag := 5 } })] }

/-- The single transform emitted for `shotHand` (no namespace, zero skew):
the hand-camera edge with its parent renamed to "link_wr1". -/
def tHand : TransformStamped :=
  { parentFrameId := "link_wr1", childFrameId := "hand_color_image_sensor",
    stamp := 50, transform := { tag := 5 } }

/-- Image message produced by converting `capDepth` with no namespace and a
skew of 7 ns. -/
def msgDepth7 : ImageMsg :=
  { frameId := "frontleft_fisheye", stamp := 93, height := 1, width := 1,
    encoding := "16UC1", data := [0, 0] }

/-- JPEG-encoded RGB-8 image fixture. -/
def imgJpeg : Image :=
  { rows := 1, cols := 1, data := [7],
    pixelFormat := .RGB_U8, format := .JPEG }

/-- Capture of `imgJpeg`. -/
def capJpeg : ImageCapture :=
  { image := imgJpeg, frameNameImageSensor := "cam",
    acquisitionTime := 0, transformsSnapshot := [] }

/-- Capture of a JPEG image whose declared pixel format is outside the five
known values. -/
def capUnknownJpeg : ImageCapture :=
  { image := { imgJpeg with pixelFormat := .other 0 },
    frameNameImageSensor := "cam",
    acquisitionTime := 0, transformsSnapshot := [] }

/-- JPEG codec that always succeeds with a fixed 1x1 BGR buffer. -/
def jdSome : Mat → Option Mat :=
  fun _ => some { rows := 1, cols := 1, cvType := CV_8UC3, data := [1, 2, 3] }

/-- Response whose JPEG payload the codec `jdNone` fails to decode. -/
def respJpegFail : ImageResponse :=
  { shot := capJpeg,
    source := { name := "hand_color_image",
                intrinsics := { focalX := 1, focalY := 2,
                                principalX := 3, principalY := 4 } } }

/-- Kinematics API stub returning a fixed solution. -/
def gsOk : IKProtoRequest → Except String IKResult :=
  fun _ => .ok { response := { payload := 42 } }

/-- Request-conversion stub. -/
def convReq0 : IKRequestMsg → IKProtoRequest := fun m => { payload := m.payload }

/-- Response-conversion stub. -/
def convResp0 : IKProtoResponse → IKResponseMsg := fun p => { payload := p.payload }

/-- One-object heap whose address 0 is the caller-supplied response. -/
def heap0 : List IKResponseMsg := [{ payload := 0 }]

end SpotRos2

namespace SpotRos2

/-- C7: `getCvPixelFormat` returns exactly the documented layout for each of
the five supported pixel formats (RGB-8U gives a 3-channel 8-bit code,
RGBA-8U a 4-channel 8-bit code, Grayscale-8U a 1-channel 8-bit code,
Grayscale-16U and Depth-16U a 1-channel 16-bit code), and every other
pixel-format value fails with the unknown-pixel-format error, producing no
default layout. -/
theorem C7_pixel_format_table :
    (getCvPixelFormat .RGB_U8 = .ok CV_8UC3
      ∧ cvChannels CV_8UC3 = 3 ∧ cvBitDepth CV_8UC3 = 8)
  ∧ (getCvPixelFormat .RGBA_U8 = .ok CV_8UC4
      ∧ cvChannels CV_8UC4 = 4 ∧ cvBitDepth CV_8UC4 = 8)
  ∧ (getCvPixelFormat .GREYSCALE_U8 = .ok CV_8UC1
      ∧ cvChannels CV_8UC1 = 1 ∧ cvBitDepth CV_8UC1 = 8)
  ∧ (getCvPixelFormat .GREYSCALE_U16 = .ok CV_16UC1
      ∧ cvChannels CV_16UC1 = 1 ∧ cvBitDepth CV_16UC1 = 16)
  ∧ (getCvPixelFormat .DEPTH_U16 = .ok CV_16UC1
      ∧ cvChannels CV_16UC1 = 1 ∧ cvBitDepth CV_16UC1 = 16)
  ∧ (∀ n : Nat, getCvPixelFormat (.other n) = .error "Unknown pixel format.") := by
  refine ⟨⟨rfl, by decide, by decide⟩, ⟨rfl, by decide, by decide⟩,
    ⟨rfl, by decide, by decide⟩, ⟨rfl, by decide, by decide⟩,
    ⟨rfl, by decide, by decide⟩, fun n => rfl⟩

/-- C6: `applyClockSkew` computes `t - skew`, so adding the skew back
recovers the original timestamp and a zero skew is the identity; and the
same correction with the same skew is applied to every surfaced timestamp:
the image-message stamp, the camera-info stamp, and the stamp of every
extracted transform all equal the skew-corrected acquisition time. -/
theorem C6_clock_skew_consistency :
    (∀ t skew : Int, applyClockSkew t skew + skew = t)
  ∧ (∀ t : Int, applyClockSkew t 0 = t)
  ∧ (∀ (jdecode : Mat → Option Mat) (cap : ImageCapture) (rn : String)
       (skew : Int) (msg : ImageMsg),
      toImageMsg jdecode cap rn skew = .ok msg →
      msg.stamp = applyClockSkew cap.acquisitionTime skew)
  ∧ (∀ (resp : ImageResponse) (rn : String) (skew : Int)
       (info : CameraInfoMsg),
      toCameraInfoMsg resp rn skew = .ok info →
      info.stamp = applyClockSkew resp.shot.acquisitionTime skew)
  ∧ (∀ (shot : ImageCapture) (rn : String) (skew : Int)
       (t : TransformStamped),
      t ∈ getImageTransforms shot rn skew →
      t.stamp = applyClockSkew shot.acquisitionTime skew) := by
  refine ⟨fun t skew => by unfold applyClockSkew; omega,
    fun t => by unfold applyClockSkew; omega, ?_, ?_, ?_⟩
  · intro jd cap rn skew msg h
    simp only [toImageMsg] at h
    split at h
    · cases h
    · split at h
      · split at h
        · cases h
        · cases h; rfl
      · cases h; rfl
      · cases h
      · cases h
  · intro resp rn skew info h
    simp only [toCameraInfoMsg] at h
    cases h; rfl
  · intro shot rn skew t h
    simp only [getImageTransforms, List.mem_filterMap] at h
    obtain ⟨edge, _, hsome⟩ := h
    split at hsome
    · cases hsome
    · cases hsome; rfl

/-- Closed witness for C6: inverse-consistency and identity at concrete
values, the image stamp of `capDepth` converted with skew 7, and the
transform stamp of the hand-camera edge of `shotHand`. -/
theorem C6_clock_skew_consistency_witness :
    (applyClockSkew 3 5 + 5 = 3) ∧ (applyClockSkew 3 0 = 3)
  ∧ msgDepth7.stamp = applyClockSkew 100 7
  ∧ tHand.stamp = applyClockSkew 50 0 :=
  ⟨C6_clock_skew_consistency.1 3 5, C6_clock_skew_consistency.2.1 3,
   C6_clock_skew_consistency.2.2.1 jdNone capDepth "" 7 msgDepth7 rfl,
   C6_clock_skew_consistency.2.2.2.2 shotHand "" 0 tHand (by decide)⟩

/-- C5: every transform emitted by `getImageTransforms` comes from a
snapshot edge whose child frame is outside the exclusion set (so in
particular never "body", "odom", "vision" or "arm0.link_wr1"), and when the
original parent frame was "arm0.link_wr1" the emitted transform carries the
external name "link_wr1" instead. -/
theorem C5_excluded_and_renamed_frames :
    ∀ (shot : ImageCapture) (rn : String) (skew : Int)
      (t : TransformStamped),
    t ∈ getImageTransforms shot rn skew →
    ∃ c e, (c, e) ∈ shot.transformsSnapshot
      ∧ kExcludedStaticTfFrames.contains c = false
      ∧ t.childFrameId = namespacedFrame rn c
      ∧ t.parentFrameId = namespacedFrame rn
          (if e.parentFrameName = "arm0.link_wr1" then "link_wr1"
           else e.parentFrameName)
      ∧ (e.parentFrameName = "arm0.link_wr1" →
          t.parentFrameId = namespacedFrame rn "link_wr1")
      ∧ (rn = "" →
          t.childFrameId ≠ "body" ∧ t.childFrameId ≠ "odom"
          ∧ t.childFrameId ≠ "vision" ∧ t.childFrameId ≠ "arm0.link_wr1"
          ∧ t.parentFrameId ≠ "arm0.link_wr1") := by
  intro shot rn skew t h
  simp only [getImageTransforms, List.mem_filterMap] at h
  obtain ⟨⟨c, e⟩, hmem, hsome⟩ := h
  split at hsome
  · cases hsome
  · rename_i hnotex
    cases hsome
    refine ⟨c, e, hmem, by simpa using hnotex, rfl, rfl, ?_, ?_⟩
    · intro hp
      simp only [toTransformStamped, hp, if_pos]
    · intro hrn
      subst hrn
      have hcmem : c ∉ kExcludedStaticTfFrames := fun hmem =>
        hnotex (List.elem_eq_true_of_mem hmem)
      have hns : ∀ s : String, namespacedFrame "" s = s := fun s => rfl
      refine ⟨?_, ?_, ?_, ?_, ?_⟩
      · show namespacedFrame "" c ≠ "body"
        rw [hns]
        intro hc
        subst hc
        exact hcmem (by decide)
      · show namespacedFrame "" c ≠ "odom"
        rw [hns]
        intro hc
        subst hc
        exact hcmem (by decide)
      · show namespacedFrame "" c ≠ "vision"
        rw [hns]
        intro hc
        subst hc
        exact hcmem (by decide)
      · show namespacedFrame "" c ≠ "arm0.link_wr1"
        rw [hns]
        intro hc
        subst hc
        exact hcmem (by decide)
      · show namespacedFrame ""
          (if e.parentFrameName = "arm0.link_wr1" then "link_wr1"
           else e.parentFrameName) ≠ "arm0.link_wr1"
        rw [hns]
        split
        · decide
        · rename_i hpwr
          exact hpwr

/-- Closed witness for C5: the hand-camera transform of `shotHand` satisfies
the exclusion and rename characterisation. -/
theorem C5_excluded_and_renamed_frames_witness :
    ∃ c e, (c, e) ∈ shotHand.transformsSnapshot
      ∧ kExcludedStaticTfFrames.contains c = false
      ∧ tHand.childFrameId = namespacedFrame "" c
      ∧ tHand.parentFrameId = namespacedFrame ""
          (if e.parentFrameName = "arm0.link_wr1" then "link_wr1"
           else e.parentFrameName)
      ∧ (e.parentFrameName = "arm0.link_wr1" →
          tHand.parentFrameId = namespacedFrame "" "link_wr1")
      ∧ (("" : String) = "" →
          tHand.childFrameId ≠ "body" ∧ tHand.childFrameId ≠ "odom"
          ∧ tHand.childFrameId ≠ "vision"
          ∧ tHand.childFrameId ≠ "arm0.link_wr1"
          ∧ tHand.parentFrameId ≠ "arm0.link_wr1") :=
  C5_excluded_and_renamed_frames shotHand "" 0 tHand (by decide)

end SpotRos2

namespace SpotRos2

/-- C1 counterexample: a batch containing the same canonical source name
twice does not fail — `getImages` returns success at this concrete input,
with a single map entry for the duplicated name, refuting the claimed
`Error(DuplicateSource)` at the second occurrence. -/
theorem C1_counterexample_duplicate_accepted :
    dupRunResult.isOk = true ∧
    (dupRunResult.toOption.map fun res => res.images.map Prod.fst) =
      some ["frontleft"] := by
  exact ⟨rfl, rfl⟩

/-- C1 amended: when an entry of the batch maps to a canonical source name
already bound in the accumulated result, `convertStep` does not fail; the
duplicate is silently dropped by `try_emplace`, the first entry is never
overwritten (the image map is returned completely unchanged), and the
entry's transforms are still appended. -/
theorem C1_amended_duplicate_silently_dropped :
    ∀ (jdecode : Mat → Option Mat)
      (fromName : String → Except String String) (rn : String) (skew : Int)
      (out : GetImagesResult) (r : ImageResponse) (k : String)
      (msg : ImageMsg),
    toImageMsg jdecode r.shot rn skew = .ok msg →
    fromName r.source.name = .ok k →
    (out.images.any fun entry => entry.1 == k) = true →
    convertStep jdecode fromName rn skew out r =
      .ok { images := out.images,
            transforms := out.transforms ++
              getImageTransforms r.shot rn skew } := by
  intro jd fn rn skew out r k msg h1 h2 h3
  simp only [convertStep, h1, toCameraInfoMsg, h2, tryEmplace, h3, if_pos]

/-- Closed witness for the amended C1: a second "frontleft" response hits
an accumulator that already binds "frontleft" and is dropped without
error. -/
theorem C1_amended_duplicate_silently_dropped_witness :
    convertStep jdNone fnFrontleft "" 0 outWithFrontleft respDepth =
      .ok { images := outWithFrontleft.images,
            transforms := outWithFrontleft.transforms ++
              getImageTransforms respDepth.shot "" 0 } :=
  C1_amended_duplicate_silently_dropped jdNone fnFrontleft "" 0
    outWithFrontleft respDepth "frontleft" msgDepth rfl rfl rfl

/-- C2: contrary to the claim, a Raw-encoded 16-bit single-channel payload
of `rows*cols*2 - 1` bytes (7 bytes for 2x2) and even a zero-byte payload
are accepted: the external-data `cv::Mat` constructor wraps the undersized
buffer without validation and its data pointer is never null, so the
`Failed to decode raw-formatted image.` guard is unreachable and conversion
reports success (the well-sized case succeeds as the claim states). -/
theorem C2_undersized_raw_accepted :
    toImageMsg jdNone capUndersized "" 0 =
      .ok { frameId := "cam", stamp := 5, height := 2, width := 2,
            encoding := "16UC1", data := [0, 0, 0, 0, 0, 0, 0] }
  ∧ toImageMsg jdNone capEmpty "" 0 =
      .ok { frameId := "cam", stamp := 5, height := 1, width := 1,
            encoding := "16UC1", data := [] }
  ∧ (toImageMsg jdNone capDepth "" 0).isOk = true := by
  exact ⟨rfl, rfl, rfl⟩

/-- C3 counterexample: a Raw-encoded RGB-8 entry (3-channel 8-bit layout,
not single-channel 16-bit) does not fail with any unsupported-layout error;
it succeeds and the returned buffer is labeled with the 16-bit
single-channel encoding — a wrong layout for its data. -/
theorem C3_counterexample_raw_rgb_mislabeled :
    toImageMsg jdNone capRawRGB "" 0 =
      .ok { frameId := "cam", stamp := 0, height := 1, width := 1,
            encoding := "16UC1", data := [9, 9, 9] } := rfl

/-- C3 amended: a Raw-encoded entry with any of the five known pixel
formats is never rejected: the payload is wrapped as-is and the resulting
message is always labeled with the 16-bit single-channel encoding,
whatever the resolved layout was. -/
theorem C3_amended_raw_never_rejected :
    ∀ (jdecode : Mat → Option Mat) (img : Image) (fn : String) (acq : Int)
      (snap : List (String × FrameEdge)) (rn : String) (skew : Int)
      (c : Nat),
    img.format = .RAW →
    getCvPixelFormat img.pixelFormat = .ok c →
    toImageMsg jdecode ⟨img, fn, acq, snap⟩ rn skew =
      .ok { frameId := namespacedFrame rn fn,
            stamp := applyClockSkew acq skew,
            height := img.rows, width := img.cols,
            encoding := "16UC1", data := img.data } := by
  intro jd img fn acq snap rn skew c hfmt hpf
  simp [toImageMsg, hpf, hfmt]

/-- Closed witness for the amended C3: the raw RGB-8 fixture is accepted
and labeled 16UC1. -/
theorem C3_amended_raw_never_rejected_witness :
    toImageMsg jdNone ⟨imgRawRGB, "cam", 0, []⟩ "" 0 =
      .ok { frameId := namespacedFrame "" "cam",
            stamp := applyClockSkew 0 0,
            height := imgRawRGB.rows, width := imgRawRGB.cols,
            encoding := "16UC1", data := imgRawRGB.data } :=
  C3_amended_raw_never_rejected jdNone imgRawRGB "cam" 0 [] "" 0 CV_8UC3
    rfl rfl

end SpotRos2

namespace SpotRos2

/-- C4: the conversion loop is fail-fast and all-or-nothing. A failing step
aborts immediately with that step's error regardless of the remaining
sources; a successful step continues with the updated accumulator; step
errors carry their stage context (shown for the image-conversion and
source-name stages, the two fallible stages); and whenever the loop
succeeds, every response of the batch was processed successfully, so a
partial result is never returned. -/
theorem C4_fail_fast_all_or_nothing :
    (∀ (jdecode : Mat → Option Mat)
       (fromName : String → Except String String) (rn : String) (skew : Int)
       (out : GetImagesResult) (r : ImageResponse)
       (rest : List ImageResponse) (e : String),
      convertStep jdecode fromName rn skew out r = .error e →
      getImagesLoop jdecode fromName rn skew out (r :: rest) = .error e)
  ∧ (∀ (jdecode : Mat → Option Mat)
       (fromName : String → Except String String) (rn : String) (skew : Int)
       (out : GetImagesResult) (r : ImageResponse)
       (rest : List ImageResponse) (out1 : GetImagesResult),
      convertStep jdecode fromName rn skew out r = .ok out1 →
      getImagesLoop jdecode fromName rn skew out (r :: rest) =
        getImagesLoop jdecode fromName rn skew out1 rest)
  ∧ (∀ (jdecode : Mat → Option Mat)
       (fromName : String → Except String String) (rn : String) (skew : Int)
       (out : GetImagesResult) (r : ImageResponse) (e : String),
      toImageMsg jdecode r.shot rn skew = .error e →
      convertStep jdecode fromName rn skew out r =
        .error ("Failed to convert SDK image response to ROS Image message: "
          ++ e))
  ∧ (∀ (jdecode : Mat → Option Mat)
       (fromName : String → Except String String) (rn : String) (skew : Int)
       (out : GetImagesResult) (r : ImageResponse) (msg : ImageMsg)
       (e : String),
      toImageMsg jdecode r.shot rn skew = .ok msg →
      fromName r.source.name = .error e →
      convertStep jdecode fromName rn skew out r =
        .error ("Failed to convert API image source name to ImageSource: "
          ++ e))
  ∧ (∀ (jdecode : Mat → Option Mat)
       (fromName : String → Except String String) (rn : String) (skew : Int)
       (out : GetImagesResult) (l1 : List ImageResponse) (r : ImageResponse)
       (l2 : List ImageResponse) (res : GetImagesResult),
      getImagesLoop jdecode fromName rn skew out (l1 ++ r :: l2) = .ok res →
      ∃ out1, getImagesLoop jdecode fromName rn skew out l1 = .ok out1
        ∧ (convertStep jdecode fromName rn skew out1 r).isOk = true) := by
  refine ⟨?_, ?_, ?_, ?_, ?_⟩
  · intro jd fn rn skew out r rest e h
    simp only [getImagesLoop, h]
  · intro jd fn rn skew out r rest out1 h
    simp only [getImagesLoop, h]
  · intro jd fn rn skew out r e h
    simp only [convertStep, h]
  · intro jd fn rn skew out r msg e h1 h2
    simp only [convertStep, h1, toCameraInfoMsg, h2]
  · intro jd fn rn skew out l1
    induction l1 generalizing out with
    | nil =>
      intro r l2 res h
      refine ⟨out, rfl, ?_⟩
      simp only [List.nil_append, getImagesLoop] at h
      cases hs : convertStep jd fn rn skew out r with
      | error e => rw [hs] at h; cases h
      | ok out1 => rfl
    | cons a l1 ih =>
      intro r l2 res h
      simp only [List.cons_append, getImagesLoop] at h
      cases hs : convertStep jd fn rn skew out a with
      | error e => rw [hs] at h; cases h
      | ok out1 =>
        rw [hs] at h
        obtain ⟨out2, hloop, hstep⟩ := ih out1 r l2 res h
        exact ⟨out2, by simp only [getImagesLoop, hs]; exact hloop, hstep⟩

/-- Closed witness for C4: a batch whose first entry fails JPEG decoding
aborts with the stage-wrapped error and never reaches the valid second
entry. -/
theorem C4_fail_fast_all_or_nothing_witness :
    getImagesLoop jdNone fnFrontleft "" 0 { images := [], transforms := [] }
      [respJpegFail, respDepth] =
      .error ("Failed to convert SDK image response to ROS Image message: "
        ++ "Failed to decode JPEG-compressed image.") :=
  C4_fail_fast_all_or_nothing.1 jdNone fnFrontleft "" 0
    { images := [], transforms := [] } respJpegFail [respDepth] _ rfl

/-- C8 counterexample: two traversals of the same set of snapshot edges, in
the two iteration orders an unordered container may present, produce the
emitted transform sequence in different orders — output order is not
independent of the container's incidental iteration order. -/
theorem C8_counterexample_order_dependent :
    shotAB.transformsSnapshot.Perm shotBA.transformsSnapshot ∧
    getImageTransforms shotAB "" 0 ≠ getImageTransforms shotBA "" 0 := by
  constructor
  · exact List.Perm.swap edgeB edgeA []
  · decide

/-- C8 amended: the emitted transforms are determined by the snapshot's
edge set only up to permutation — permuting the iteration order of the edge
map permutes the output sequence accordingly; the order is deterministic
for a fixed iteration order (the function is pure) but follows that order
rather than any sorted or otherwise canonical order. -/
theorem C8_amended_permutation_invariance :
    ∀ (img : Image) (fn : String) (acq : Int)
      (s1 s2 : List (String × FrameEdge)) (rn : String) (skew : Int),
    s1.Perm s2 →
    (getImageTransforms ⟨img, fn, acq, s1⟩ rn skew).Perm
      (getImageTransforms ⟨img, fn, acq, s2⟩ rn skew) := by
  intro img fn acq s1 s2 rn skew h
  exact h.filterMap _

/-- Closed witness for the amended C8: the two iteration orders of the
two-edge snapshot yield permuted outputs. -/
theorem C8_amended_permutation_invariance_witness :
    (getImageTransforms ⟨imgDepth, "cam", 0, [edgeA, edgeB]⟩ "" 0).Perm
      (getImageTransforms ⟨imgDepth, "cam", 0, [edgeB, edgeA]⟩ "" 0) :=
  C8_amended_permutation_invariance imgDepth "cam" 0 [edgeA, edgeB]
    [edgeB, edgeA] "" 0 (List.Perm.swap edgeB edgeA [])

/-- C9: pixel-format resolution precedes encoding dispatch. An entry whose
pixel format is outside the five known values fails with the pixel-format
error even when its encoding is JPEG; for JPEG entries the resolved layout
is never used (any two known pixel formats give identical results); and a
successful JPEG conversion is always labeled as a 3-channel color buffer
("bgr8"). -/
theorem C9_pixel_format_resolution_first :
    (∀ (jdecode : Mat → Option Mat) (cap : ImageCapture) (rn : String)
       (skew : Int) (n : Nat),
      cap.image.pixelFormat = .other n →
      cap.image.format = .JPEG →
      toImageMsg jdecode cap rn skew =
        .error ("Failed to determine pixel format: "
          ++ "Unknown pixel format."))
  ∧ (∀ (jdecode : Mat → Option Mat) (img : Image) (f1 f2 : PixelFormat)
       (fn : String) (acq : Int) (snap : List (String × FrameEdge))
       (rn : String) (skew : Int),
      img.format = .JPEG →
      (getCvPixelFormat f1).isOk = true →
      (getCvPixelFormat f2).isOk = true →
      toImageMsg jdecode ⟨{ img with pixelFormat := f1 }, fn, acq, snap⟩
          rn skew =
        toImageMsg jdecode ⟨{ img with pixelFormat := f2 }, fn, acq, snap⟩
          rn skew)
  ∧ (∀ (jdecode : Mat → Option Mat) (cap : ImageCapture) (rn : String)
       (skew : Int) (msg : ImageMsg),
      cap.image.format = .JPEG →
      toImageMsg jdecode cap rn skew = .ok msg →
      msg.encoding = "bgr8") := by
  refine ⟨?_, ?_, ?_⟩
  · intro jd cap rn skew n hpf _
    simp [toImageMsg, hpf, getCvPixelFormat]
  · intro jd img f1 f2 fn acq snap rn skew hfmt h1 h2
    cases hq1 : getCvPixelFormat f1 with
    | error e => rw [hq1] at h1; cases h1
    | ok c1 =>
      cases hq2 : getCvPixelFormat f2 with
      | error e => rw [hq2] at h2; cases h2
      | ok c2 => simp [toImageMsg, hq1, hq2, hfmt]
  · intro jd cap rn skew msg hfmt h
    simp only [toImageMsg, hfmt] at h
    split at h
    · cases h
    · split at h
      · cases h
      · cases h; rfl

/-- Closed witness for C9: the unknown-pixel-format JPEG fixture fails with
the pixel-format error; swapping RGB-8 for Depth-16 on a JPEG fixture
leaves the result unchanged; and a successfully decoded JPEG fixture is
labeled "bgr8". -/
theorem C9_pixel_format_resolution_first_witness :
    toImageMsg jdNone capUnknownJpeg "" 0 =
      .error ("Failed to determine pixel format: "
        ++ "Unknown pixel format.")
  ∧ toImageMsg jdSome ⟨{ imgJpeg with pixelFormat := .RGB_U8 }, "cam", 0, []⟩
      "" 0 =
    toImageMsg jdSome ⟨{ imgJpeg with pixelFormat := .DEPTH_U16 }, "cam", 0, []⟩
      "" 0
  ∧ ({ frameId := "cam", stamp := 0, height := 1, width := 1,
       encoding := "bgr8", data := [1, 2, 3] } : ImageMsg).encoding =
      "bgr8" :=
  ⟨C9_pixel_format_resolution_first.1 jdNone capUnknownJpeg "" 0 0 rfl rfl,
   C9_pixel_format_resolution_first.2.1 jdSome imgJpeg .RGB_U8 .DEPTH_U16
     "cam" 0 [] "" 0 rfl rfl rfl,
   C9_pixel_format_resolution_first.2.2 jdSome capJpeg "" 0
     { frameId := "cam", stamp := 0, height := 1, width := 1,
       encoding := "bgr8", data := [1, 2, 3] } rfl rfl⟩

/-- C10: the service callback never writes through the caller-supplied
response address: after any invocation the heap cell at that address is
unchanged, and the callback's local `response` pointer, when it survives to
the end of the body, refers to the freshly allocated conversion result, a
different address — so the conversion result never reaches the service
caller. -/
theorem C10_response_untouched :
    ∀ (getSolutions : IKProtoRequest → Except String IKResult)
      (convReq : IKRequestMsg → IKProtoRequest)
      (convResp : IKProtoResponse → IKResponseMsg)
      (heap : List IKResponseMsg) (request : IKRequestMsg)
      (responseAddr : Nat),
    responseAddr < heap.length →
    ((service_callback getSolutions convReq convResp heap request
        responseAddr).heap)[responseAddr]? = heap[responseAddr]?
    ∧ (∀ p, (service_callback getSolutions convReq convResp heap request
        responseAddr).localResponse = some p → p ≠ responseAddr) := by
  intro gs cr cv heap req addr haddr
  simp only [service_callback]
  cases hgs : gs (cr req) with
  | error e =>
    simp only [hgs]
    exact ⟨trivial, fun p hp => by cases hp⟩
  | ok v =>
    simp only [hgs]
    refine ⟨List.getElem?_append_left haddr, ?_⟩
    intro p hp
    simp only [Option.some.injEq] at hp
    omega

/-- Closed witness for C10: with a one-object heap and stub collaborators,
address 0 is unchanged and the local pointer ends on a different address. -/
theorem C10_response_untouched_witness :
    ((service_callback gsOk convReq0 convResp0 heap0 { payload := 1 }
        0).heap)[0]? = heap0[0]?
    ∧ (∀ p, (service_callback gsOk convReq0 convResp0 heap0 { payload := 1 }
        0).localResponse = some p → p ≠ 0) :=
  C10_response_untouched gsOk convReq0 convResp0 heap0 { payload := 1 } 0
    (by decide)

end SpotRos2
